import Mathlib

/-!
Verification of the micro-blogging backend in `backend/main.py`.

Python strings are modelled as `List Char` (`Str`), so that the exact
string operations of the source (`str.startswith`, `str.split(" ")[1]`)
can be reasoned about.  The relational store is modelled as a `DBState`
holding the rows of the `posts` and `likes` tables together with the
auto-increment counter for like ids.  Each endpoint handler becomes a
function from its inputs and the current state to an `Except ApiError`
result; raising `HTTPException` before any mutation corresponds to
returning `.error` with the original state implicitly unchanged.
Nondeterministic inputs of the source (`uuid.uuid4()`, `datetime.now`)
are passed in as explicit arguments.
-/

/-- A Python string, modelled as its list of characters. -/
abbrev Str := List Char

/-- Python `str.split(sep)` with an explicit one-character separator:
splits on every occurrence of `sep` and keeps empty words, so
`"".split(" ") = [""]` and `"a  b".split(" ") = ["a", "", "b"]`. -/
def pySplit (sep : Char) : Str → List Str
  | [] => [[]]
  | c :: cs =>
    if c = sep then
      [] :: pySplit sep cs
    else
      match pySplit sep cs with
      | [] => [[c]]
      | w :: ws => (c :: w) :: ws

/-- A record of the seeded in-memory user directory `FAKE_USERS_DB`. -/
structure UserRec where
  id : Str
  username : Str
  password : Str
deriving DecidableEq

/-- The identity returned by authentication (pydantic model `User`). -/
structure User where
  id : Str
  username : Str
deriving DecidableEq

def user1Name : Str := "user1".toList
def user2Name : Str := "user2".toList
def user1Id : Str := "1".toList
def user2Id : Str := "2".toList
def password1 : Str := "password1".toList
def password2 : Str := "password2".toList

/-- The fixed seeded user directory `FAKE_USERS_DB` of `main.py`. -/
def FAKE_USERS_DB : List (Str × UserRec) :=
  [(user1Name, ⟨user1Id, user1Name, password1⟩),
   (user2Name, ⟨user2Id, user2Name, password2⟩)]

/-- Python `dict.get` on the (key-unique) association list representing
`FAKE_USERS_DB`. -/
def dictGet (d : List (Str × UserRec)) (k : Str) : Option UserRec :=
  (d.find? (fun kv => kv.1 == k)).map (fun kv => kv.2)

/-- The error classes raised via `HTTPException` in `main.py`, with the
message text of the `raise` site. -/
inductive ApiError where
  | unauthenticated : Str → ApiError
  | forbidden : Str → ApiError
  | notFound : Str → ApiError
  | badRequest : Str → ApiError
deriving DecidableEq

/-- The HTTP status code each error class is surfaced with. -/
def statusCode : ApiError → Nat
  | .unauthenticated _ => 401
  | .forbidden _ => 403
  | .notFound _ => 404
  | .badRequest _ => 400

def invalidSchemeMsg : Str := "Invalid scheme".toList
def invalidTokenMsg : Str := "Invalid token".toList
def badLoginMsg : Str := "Incorrect username or password".toList
def postNotFoundMsg : Str := "Post not found".toList
def notAuthorizedMsg : Str := "Not authorized to delete this post".toList
def alreadyLikedMsg : Str := "Already liked this post".toList
def notLikedMsg : Str := "Post not liked".toList
def bearerTokenType : Str := "bearer".toList

/-- The credential scheme marker checked by `authorization.startswith("Bearer ")`. -/
def bearerScheme : Str := "Bearer ".toList

/-- The token extracted by `authorization.split(" ")[1]`.  When the
`startswith` guard has passed the split has at least two words, so the
default never fires. -/
def tokenOf (authorization : Str) : Str :=
  (pySplit ' ' authorization).getD 1 []

/-- `get_current_user` of `main.py`: checks the `Bearer ` scheme, looks
the second space-separated word up verbatim in `FAKE_USERS_DB`. -/
def get_current_user (authorization : Str) : Except ApiError User :=
  if bearerScheme.isPrefixOf authorization then
    match dictGet FAKE_USERS_DB (tokenOf authorization) with
    | none => .error (.unauthenticated invalidTokenMsg)
    | some user_data => .ok ⟨user_data.id, user_data.username⟩
  else
    .error (.unauthenticated invalidSchemeMsg)

/-- The body returned by a successful `login`. -/
structure LoginResponse where
  access_token : Str
  token_type : Str
  user : User
deriving DecidableEq

/-- `login` of `main.py`.  The two `form_data.get` lookups are modelled
by the two `Option Str` arguments (a missing key yields `none`; looking
`none` up in the directory finds nothing, as `dict.get(None)` does). -/
def login (username password : Option Str) : Except ApiError LoginResponse :=
  let user : Option UserRec :=
    match username with
    | none => none
    | some u => dictGet FAKE_USERS_DB u
  match user with
  | none => .error (.unauthenticated badLoginMsg)
  | some u =>
    if password = some u.password then
      .ok ⟨u.username, bearerTokenType, ⟨u.id, u.username⟩⟩
    else
      .error (.unauthenticated badLoginMsg)

/-- A row of the `posts` table (`PostDB`). -/
structure PostRow where
  id : Str
  text : Str
  timestamp : Nat
  owner_id : Str
  owner_username : Str
deriving DecidableEq

/-- A row of the `likes` table (`LikeDB`), with its auto-increment
surrogate key. -/
structure LikeRow where
  id : Nat
  user_id : Str
  post_id : Str
deriving DecidableEq

/-- The relational store: the two tables plus the auto-increment counter
for like ids. -/
structure DBState where
  posts : List PostRow
  likes : List LikeRow
  nextLikeId : Nat
deriving DecidableEq

/-- The store right after `Base.metadata.create_all` on a fresh database:
both tables empty. -/
def initialState : DBState := ⟨[], [], 1⟩

/-- `db.query(PostDB).filter(PostDB.id == post_id).first()`. -/
def findPost (s : DBState) (post_id : Str) : Option PostRow :=
  s.posts.find? (fun p => p.id == post_id)

/-- `db.query(LikeDB).filter(LikeDB.post_id == post_id, LikeDB.user_id == user_id).first()`. -/
def findLike (s : DBState) (post_id user_id : Str) : Option LikeRow :=
  s.likes.find? (fun l => l.post_id == post_id && l.user_id == user_id)

/-- `db.query(LikeDB).filter(LikeDB.post_id == post_id).count()`. -/
def likesCount (s : DBState) (post_id : Str) : Nat :=
  (s.likes.filter (fun l => l.post_id == post_id)).length

/-- The response shape (pydantic model `Post`), a post row annotated with
its computed `likes_count`. -/
structure PostOut where
  id : Str
  text : Str
  timestamp : Nat
  owner_id : Str
  owner_username : Str
  likes_count : Nat
deriving DecidableEq

/-- Builds the `Post` response for one row, computing `likes_count`. -/
def annotate (s : DBState) (p : PostRow) : PostOut :=
  ⟨p.id, p.text, p.timestamp, p.owner_id, p.owner_username, likesCount s p.id⟩

/-- The comparison realising `order_by(PostDB.timestamp.desc())`. -/
def tsDesc (a b : PostRow) : Bool := decide (b.timestamp ≤ a.timestamp)

/-- `list_posts` of `main.py`: all posts ordered by timestamp descending,
each annotated with its like count. -/
def list_posts (s : DBState) : List PostOut :=
  (s.posts.mergeSort tsDesc).map (annotate s)

/-- `get_user_posts` of `main.py`: posts filtered by `owner_username`,
ordered by timestamp descending, annotated with like counts. -/
def get_user_posts (username : Str) (s : DBState) : List PostOut :=
  ((s.posts.filter (fun p => p.owner_username == username)).mergeSort tsDesc).map (annotate s)

/-- `create_post` of `main.py`.  The generated `uuid.uuid4()` and the
`datetime.now(timezone.utc)` stamp enter as the `newId` and `now`
arguments.  Returns the new store and the response body, whose
`likes_count` is the literal `0` of the source. -/
def create_post (newId : Str) (now : Nat) (text : Str) (current_user : User)
    (s : DBState) : DBState × PostOut :=
  let new_post : PostRow := ⟨newId, text, now, current_user.id, current_user.username⟩
  (⟨s.posts ++ [new_post], s.likes, s.nextLikeId⟩,
   ⟨new_post.id, new_post.text, new_post.timestamp, new_post.owner_id,
    new_post.owner_username, 0⟩)

/-- `delete_post` of `main.py`: 404 when the post is absent, 403 when the
requester is not the owner, otherwise one commit deletes every like row
referencing the post and the post row itself. -/
def delete_post (post_id : Str) (current_user : User) (s : DBState) :
    Except ApiError DBState :=
  match findPost s post_id with
  | none => .error (.notFound postNotFoundMsg)
  | some post_to_delete =>
    if post_to_delete.owner_id ≠ current_user.id then
      .error (.forbidden notAuthorizedMsg)
    else
      .ok ⟨s.posts.filter (fun p => p.id != post_id),
           s.likes.filter (fun l => l.post_id != post_id),
           s.nextLikeId⟩

/-- `like_post` of `main.py`: checks post existence first, then the
already-liked state, then inserts the like row with the next surrogate
id. -/
def like_post (post_id : Str) (current_user : User) (s : DBState) :
    Except ApiError DBState :=
  match findPost s post_id with
  | none => .error (.notFound postNotFoundMsg)
  | some _ =>
    match findLike s post_id current_user.id with
    | some _ => .error (.badRequest alreadyLikedMsg)
    | none =>
      .ok ⟨s.posts, s.likes ++ [⟨s.nextLikeId, current_user.id, post_id⟩],
           s.nextLikeId + 1⟩

/-- `unlike_post` of `main.py`: checks post existence first, then fetches
the requester's like, then deletes that row (by its primary key). -/
def unlike_post (post_id : Str) (current_user : User) (s : DBState) :
    Except ApiError DBState :=
  match findPost s post_id with
  | none => .error (.notFound postNotFoundMsg)
  | some _ =>
    match findLike s post_id current_user.id with
    | none => .error (.badRequest notLikedMsg)
    | some like =>
      .ok ⟨s.posts, s.likes.filter (fun l => l.id != like.id), s.nextLikeId⟩

/-- One mutating API call.  `create` carries the primary-key constraint
of the `posts` table (uuid ids never collide with existing rows); the
read-only endpoints do not change the store. -/
inductive Step : DBState → DBState → Prop where
  | create (newId : Str) (now : Nat) (text : Str) (u : User) (s : DBState)
      (fresh : ∀ p ∈ s.posts, p.id ≠ newId) :
      Step s (create_post newId now text u s).1
  | delete (post_id : Str) (u : User) (s s' : DBState)
      (h : delete_post post_id u s = .ok s') : Step s s'
  | like (post_id : Str) (u : User) (s s' : DBState)
      (h : like_post post_id u s = .ok s') : Step s s'
  | unlike (post_id : Str) (u : User) (s s' : DBState)
      (h : unlike_post post_id u s = .ok s') : Step s s'

/-- States reachable from a fresh database by any sequence of API calls. -/
inductive Reachable : DBState → Prop where
  | init : Reachable initialState
  | step {s s' : DBState} : Reachable s → Step s s' → Reachable s'

/-- Referential integrity: every like row points at an existing post. -/
def NoDanglingLikes (s : DBState) : Prop :=
  ∀ l ∈ s.likes, ∃ p ∈ s.posts, p.id = l.post_id

/-- Uniqueness of the (user_id, post_id) pair across the likes table. -/
def LikesUnique (s : DBState) : Prop :=
  s.likes.Pairwise (fun a b => ¬ (a.user_id = b.user_id ∧ a.post_id = b.post_id))

/-! Inversion lemmas for the mutating endpoints. -/

lemma delete_post_ok {post_id : Str} {u : User} {s s' : DBState}
    (h : delete_post post_id u s = .ok s') :
    (∃ p, findPost s post_id = some p ∧ p.owner_id = u.id) ∧
    s' = ⟨s.posts.filter (fun p => p.id != post_id),
          s.likes.filter (fun l => l.post_id != post_id),
          s.nextLikeId⟩ := by
  cases hf : findPost s post_id with
  | none => simp [delete_post, hf] at h
  | some p =>
    by_cases ho : p.owner_id = u.id
    · simp [delete_post, hf, ho] at h
      exact ⟨⟨p, rfl, ho⟩, h.symm⟩
    · simp [delete_post, hf, ho] at h

lemma like_post_ok {post_id : Str} {u : User} {s s' : DBState}
    (h : like_post post_id u s = .ok s') :
    (∃ p, findPost s post_id = some p) ∧
    findLike s post_id u.id = none ∧
    s' = ⟨s.posts, s.likes ++ [⟨s.nextLikeId, u.id, post_id⟩], s.nextLikeId + 1⟩ := by
  cases hf : findPost s post_id with
  | none => simp [like_post, hf] at h
  | some p =>
    cases hl : findLike s post_id u.id with
    | some lk => simp [like_post, hf, hl] at h
    | none =>
      simp [like_post, hf, hl] at h
      exact ⟨⟨p, rfl⟩, rfl, h.symm⟩

lemma unlike_post_ok {post_id : Str} {u : User} {s s' : DBState}
    (h : unlike_post post_id u s = .ok s') :
    (∃ p, findPost s post_id = some p) ∧
    ∃ lk, findLike s post_id u.id = some lk ∧
      s' = ⟨s.posts, s.likes.filter (fun l => l.id != lk.id), s.nextLikeId⟩ := by
  cases hf : findPost s post_id with
  | none => simp [unlike_post, hf] at h
  | some p =>
    cases hl : findLike s post_id u.id with
    | none => simp [unlike_post, hf, hl] at h
    | some lk =>
      simp [unlike_post, hf, hl] at h
      exact ⟨⟨p, rfl⟩, lk, rfl, h.symm⟩

/-! Facts about `pySplit` and `List.isPrefixOf`. -/

lemma pySplit_sep_word (sep : Char) (w rest : Str) (hw : sep ∉ w) :
    pySplit sep (w ++ sep :: rest) = w :: pySplit sep rest := by
  induction w with
  | nil => simp [pySplit]
  | cons c cs ih =>
    rw [List.mem_cons, not_or] at hw
    obtain ⟨h1, h2⟩ := hw
    show pySplit sep (c :: (cs ++ sep :: rest)) = (c :: cs) :: pySplit sep rest
    simp only [pySplit]
    rw [if_neg (fun hc => h1 hc.symm), ih h2]

lemma isPrefixOf_self_append (l t : Str) : l.isPrefixOf (l ++ t) = true := by
  induction l with
  | nil => simp [List.isPrefixOf]
  | cons c cs ih => simp [List.isPrefixOf, ih]

/-! Concrete states used to exercise the theorems. -/

def demoUser1 : User := ⟨user1Id, user1Name⟩
def demoUser2 : User := ⟨user2Id, user2Name⟩
def demoPostId : Str := "p1".toList
def demoText : Str := "hello".toList
def demoPost : PostRow := ⟨demoPostId, demoText, 1, user1Id, user1Name⟩

/-- The store after user1 created one post on a fresh database. -/
def s1 : DBState := ⟨[demoPost], [], 1⟩

/-- The store after user2 then liked that post. -/
def s2 : DBState := ⟨[demoPost], [⟨1, user2Id, demoPostId⟩], 2⟩

/-! Claim theorems. -/

/-- C2: `delete(postId, requester)` fails with `NotFound` (404) when no
post has that id, fails with `Forbidden` (403) when the requester is not
the owner, and otherwise removes the post together with every like row
referencing it and succeeds; failures raise before any mutation, so the
store is unchanged on failure. -/
theorem C2_delete_behavior (post_id : Str) (u : User) (s : DBState) :
    ((∀ p ∈ s.posts, p.id ≠ post_id) →
      delete_post post_id u s = .error (.notFound postNotFoundMsg)) ∧
    (∀ p, findPost s post_id = some p → p.owner_id ≠ u.id →
      delete_post post_id u s = .error (.forbidden notAuthorizedMsg)) ∧
    (∀ p, findPost s post_id = some p → p.owner_id = u.id →
      delete_post post_id u s =
        .ok ⟨s.posts.filter (fun q => q.id != post_id),
             s.likes.filter (fun l => l.post_id != post_id),
             s.nextLikeId⟩) ∧
    statusCode (.notFound postNotFoundMsg) = 404 ∧
    statusCode (.forbidden notAuthorizedMsg) = 403 := by
  refine ⟨?_, ?_, ?_, rfl, rfl⟩
  · intro h
    have hf : findPost s post_id = none :=
      List.find?_eq_none.mpr (fun p hp => by simpa using h p hp)
    simp [delete_post, hf]
  · intro p hf ho
    simp [delete_post, hf, ho]
  · intro p hf ho
    simp [delete_post, hf, ho]

/-- C2 witness: deleting a missing post 404s, a foreign post 403s, and an
owned post removes it and its like rows. -/
theorem C2_witness :
    delete_post demoPostId demoUser1 initialState = .error (.notFound postNotFoundMsg) ∧
    delete_post demoPostId demoUser2 s1 = .error (.forbidden notAuthorizedMsg) ∧
    delete_post demoPostId demoUser1 s2 = .ok ⟨[], [], 2⟩ :=
  ⟨(C2_delete_behavior demoPostId demoUser1 initialState).1 (by decide),
   (C2_delete_behavior demoPostId demoUser2 s1).2.1 demoPost (by decide) (by decide),
   (C2_delete_behavior demoPostId demoUser1 s2).2.2.1 demoPost (by decide) (by decide)⟩

/-- C3: `like(postId, user)` fails with `NotFound` (404) when no post has
that id — the existence check runs first, so a missing post never yields
the like-specific error — otherwise fails with the bad-request (400)
already-liked error when a like with (user.id, postId) exists, and
otherwise inserts exactly that like row and succeeds. -/
theorem C3_like_behavior (post_id : Str) (u : User) (s : DBState) :
    ((∀ p ∈ s.posts, p.id ≠ post_id) →
      like_post post_id u s = .error (.notFound postNotFoundMsg)) ∧
    (findPost s post_id ≠ none →
      (∃ l ∈ s.likes, l.user_id = u.id ∧ l.post_id = post_id) →
      like_post post_id u s = .error (.badRequest alreadyLikedMsg)) ∧
    (findPost s post_id ≠ none →
      (∀ l ∈ s.likes, ¬ (l.user_id = u.id ∧ l.post_id = post_id)) →
      like_post post_id u s =
        .ok ⟨s.posts, s.likes ++ [⟨s.nextLikeId, u.id, post_id⟩],
             s.nextLikeId + 1⟩) ∧
    statusCode (.notFound postNotFoundMsg) = 404 ∧
    statusCode (.badRequest alreadyLikedMsg) = 400 := by
  refine ⟨?_, ?_, ?_, rfl, rfl⟩
  · intro h
    have hf : findPost s post_id = none :=
      List.find?_eq_none.mpr (fun p hp => by simpa using h p hp)
    simp [like_post, hf]
  · intro hf hex
    cases hfp : findPost s post_id with
    | none => exact absurd hfp hf
    | some p =>
      cases hfl : findLike s post_id u.id with
      | none =>
        obtain ⟨l, hl, hu, hp⟩ := hex
        have := List.find?_eq_none.mp hfl l hl
        simp [hu, hp] at this
      | some lk => simp [like_post, hfp, hfl]
  · intro hf hnone
    cases hfp : findPost s post_id with
    | none => exact absurd hfp hf
    | some p =>
      have hfl : findLike s post_id u.id = none :=
        List.find?_eq_none.mpr (fun l hl => by
          have := hnone l hl
          simp only [Bool.and_eq_true, beq_iff_eq, not_and]
          intro h1 h2
          exact this ⟨h2, h1⟩)
      simp [like_post, hfp, hfl]

/-- C3 witness: liking a missing post 404s, liking a fresh post inserts
the like row, and a repeat like by the same user is rejected 400. -/
theorem C3_witness :
    like_post demoPostId demoUser2 initialState = .error (.notFound postNotFoundMsg) ∧
    like_post demoPostId demoUser2 s1 = .ok s2 ∧
    like_post demoPostId demoUser2 s2 = .error (.badRequest alreadyLikedMsg) :=
  ⟨(C3_like_behavior demoPostId demoUser2 initialState).1 (by decide),
   (C3_like_behavior demoPostId demoUser2 s1).2.2.1 (by decide) (by decide),
   (C3_like_behavior demoPostId demoUser2 s2).2.1 (by decide)
     ⟨⟨1, user2Id, demoPostId⟩, by decide, by decide, by decide⟩⟩

/-- C4: `unlike(postId, user)` fails with `NotFound` (404) when no post
has that id (the existence check runs first), fails with the bad-request
(400) not-liked error when no like with (user.id, postId) exists, and
otherwise removes the found like row and succeeds. -/
theorem C4_unlike_behavior (post_id : Str) (u : User) (s : DBState) :
    ((∀ p ∈ s.posts, p.id ≠ post_id) →
      unlike_post post_id u s = .error (.notFound postNotFoundMsg)) ∧
    (findPost s post_id ≠ none →
      (∀ l ∈ s.likes, ¬ (l.user_id = u.id ∧ l.post_id = post_id)) →
      unlike_post post_id u s = .error (.badRequest notLikedMsg)) ∧
    (∀ lk, findPost s post_id ≠ none → findLike s post_id u.id = some lk →
      unlike_post post_id u s =
        .ok ⟨s.posts, s.likes.filter (fun l => l.id != lk.id), s.nextLikeId⟩) ∧
    statusCode (.notFound postNotFoundMsg) = 404 ∧
    statusCode (.badRequest notLikedMsg) = 400 := by
  refine ⟨?_, ?_, ?_, rfl, rfl⟩
  · intro h
    have hf : findPost s post_id = none :=
      List.find?_eq_none.mpr (fun p hp => by simpa using h p hp)
    simp [unlike_post, hf]
  · intro hf hnone
    cases hfp : findPost s post_id with
    | none => exact absurd hfp hf
    | some p =>
      have hfl : findLike s post_id u.id = none :=
        List.find?_eq_none.mpr (fun l hl => by
          have := hnone l hl
          simp only [Bool.and_eq_true, beq_iff_eq, not_and]
          intro h1 h2
          exact this ⟨h2, h1⟩)
      simp [unlike_post, hfp, hfl]
  · intro lk hf hfl
    cases hfp : findPost s post_id with
    | none => exact absurd hfp hf
    | some p => simp [unlike_post, hfp, hfl]

/-- C4 witness: unliking a missing post 404s, unliking a never-liked post
is rejected 400, and unliking after a like removes that like row. -/
theorem C4_witness :
    unlike_post demoPostId demoUser2 initialState = .error (.notFound postNotFoundMsg) ∧
    unlike_post demoPostId demoUser2 s1 = .error (.badRequest notLikedMsg) ∧
    unlike_post demoPostId demoUser2 s2 = .ok ⟨[demoPost], [], 2⟩ :=
  ⟨(C4_unlike_behavior demoPostId demoUser2 initialState).1 (by decide),
   (C4_unlike_behavior demoPostId demoUser2 s1).2.1 (by decide) (by decide),
   (C4_unlike_behavior demoPostId demoUser2 s2).2.2.1 ⟨1, user2Id, demoPostId⟩
     (by decide) (by decide)⟩

/-- C7: `create(text, owner)` always succeeds: given the freshness of the
generated uuid (modelled by the hypothesis), it returns the created post
with the new id, the supplied UTC stamp, the owner identity copied from
the creator, and `likes_count` exactly 0, and appends exactly that row
to the posts table. -/
theorem C7_create_behavior (newId : Str) (now : Nat) (text : Str) (u : User)
    (s : DBState) (fresh : ∀ p ∈ s.posts, p.id ≠ newId) :
    (create_post newId now text u s).2 = ⟨newId, text, now, u.id, u.username, 0⟩ ∧
    (create_post newId now text u s).1 =
      ⟨s.posts ++ [⟨newId, text, now, u.id, u.username⟩], s.likes, s.nextLikeId⟩ ∧
    (∀ p ∈ s.posts, p.id ≠ (create_post newId now text u s).2.id) :=
  ⟨rfl, rfl, fresh⟩

/-- C7 witness: creating a post on a fresh database returns it with
`likes_count` 0 and stores exactly the new row. -/
theorem C7_witness :
    (create_post demoPostId 1 demoText demoUser1 initialState).2 =
      ⟨demoPostId, demoText, 1, user1Id, user1Name, 0⟩ ∧
    (create_post demoPostId 1 demoText demoUser1 initialState).1 =
      ⟨[demoPost], [], 1⟩ :=
  ⟨(C7_create_behavior demoPostId 1 demoText demoUser1 initialState (by decide)).1,
   (C7_create_behavior demoPostId 1 demoText demoUser1 initialState (by decide)).2.1⟩

/-- C8: the auth resolver fails with `Unauthenticated` (401) when the
header does not start with the scheme marker or when the extracted token
is not a seeded username, and otherwise returns exactly that seeded
user's identity. -/
theorem C8_auth_behavior (authorization : Str) :
    (bearerScheme.isPrefixOf authorization = false →
      get_current_user authorization = .error (.unauthenticated invalidSchemeMsg)) ∧
    (bearerScheme.isPrefixOf authorization = true →
      dictGet FAKE_USERS_DB (tokenOf authorization) = none →
      get_current_user authorization = .error (.unauthenticated invalidTokenMsg)) ∧
    (∀ ud, bearerScheme.isPrefixOf authorization = true →
      dictGet FAKE_USERS_DB (tokenOf authorization) = some ud →
      get_current_user authorization = .ok ⟨ud.id, ud.username⟩) ∧
    statusCode (.unauthenticated invalidSchemeMsg) = 401 ∧
    statusCode (.unauthenticated invalidTokenMsg) = 401 := by
  refine ⟨?_, ?_, ?_, rfl, rfl⟩
  · intro hb; simp [get_current_user, hb]
  · intro hb hd; simp [get_current_user, hb, hd]
  · intro ud hb hd; simp [get_current_user, hb, hd]

/-- C8 witness: a seeded token authenticates as that user, a wrong scheme
and an unknown token are rejected. -/
theorem C8_witness :
    get_current_user ("Bearer user1".toList) = .ok demoUser1 ∧
    get_current_user ("Token user1".toList) = .error (.unauthenticated invalidSchemeMsg) ∧
    get_current_user ("Bearer nobody".toList) = .error (.unauthenticated invalidTokenMsg) :=
  ⟨(C8_auth_behavior ("Bearer user1".toList)).2.2.1 ⟨user1Id, user1Name, password1⟩
      (by decide) (by decide),
   (C8_auth_behavior ("Token user1".toList)).1 (by decide),
   (C8_auth_behavior ("Bearer nobody".toList)).2.1 (by decide) (by decide)⟩

/-- C9 counterexample: a login request whose payload is missing both
fields is rejected with the `Unauthenticated` class carried as HTTP 401,
not with a bad-request (400) error as the claim states. -/
theorem C9_counterexample :
    login none none = .error (.unauthenticated badLoginMsg) ∧
    statusCode (.unauthenticated badLoginMsg) = 401 ∧
    (401 : Nat) ≠ 400 :=
  ⟨rfl, rfl, by decide⟩

/-- C9 (amended): a login with missing or non-matching username/password
fields is rejected with `Unauthenticated` (401); a login with a seeded
username and its matching plaintext password returns the username itself
as `access_token` together with the user's identity. -/
theorem C9_login_behavior :
    (∀ p, login none p = .error (.unauthenticated badLoginMsg)) ∧
    (∀ uo po e, login uo po = .error e → e = .unauthenticated badLoginMsg ∧ statusCode e = 401) ∧
    (∀ uo po r, login uo po = .ok r →
      ∃ nm ur, uo = some nm ∧ dictGet FAKE_USERS_DB nm = some ur ∧
        po = some ur.password ∧
        r = ⟨ur.username, bearerTokenType, ⟨ur.id, ur.username⟩⟩) ∧
    login (some user1Name) (some password1) =
      .ok ⟨user1Name, bearerTokenType, ⟨user1Id, user1Name⟩⟩ := by
  refine ⟨fun p => rfl, ?_, ?_, rfl⟩
  · intro uo po e h
    cases uo with
    | none =>
      simp [login] at h
      subst h
      exact ⟨rfl, rfl⟩
    | some nm =>
      cases hd : dictGet FAKE_USERS_DB nm with
      | none =>
        simp [login, hd] at h
        subst h
        exact ⟨rfl, rfl⟩
      | some ur =>
        by_cases hp : po = some ur.password
        · simp [login, hd, hp] at h
        · simp [login, hd, hp] at h
          subst h
          exact ⟨rfl, rfl⟩
  · intro uo po r h
    cases uo with
    | none => simp [login] at h
    | some nm =>
      cases hd : dictGet FAKE_USERS_DB nm with
      | none => simp [login, hd] at h
      | some ur =>
        by_cases hp : po = some ur.password
        · simp [login, hd, hp] at h
          exact ⟨nm, ur, rfl, hd, hp, h.symm⟩
        · simp [login, hd, hp] at h

/-- C9 witness: the success branch at the seeded user1 credentials and
the 401 classification of the missing-payload failure. -/
theorem C9_witness :
    (∃ nm ur, (some user1Name : Option Str) = some nm ∧
      dictGet FAKE_USERS_DB nm = some ur ∧
      (some password1 : Option Str) = some ur.password ∧
      (⟨user1Name, bearerTokenType, ⟨user1Id, user1Name⟩⟩ : LoginResponse) =
        ⟨ur.username, bearerTokenType, ⟨ur.id, ur.username⟩⟩) ∧
    (ApiError.unauthenticated badLoginMsg = .unauthenticated badLoginMsg ∧
      statusCode (.unauthenticated badLoginMsg) = 401) :=
  ⟨C9_login_behavior.2.2.1 (some user1Name) (some password1)
      ⟨user1Name, bearerTokenType, ⟨user1Id, user1Name⟩⟩ rfl,
   C9_login_behavior.2.1 none none (.unauthenticated badLoginMsg) rfl⟩

/-- C1: in every state reachable by any sequence of API operations, no
like row references a post id for which no post row exists; deletion
removes a post and its like rows in the same step, so no state with
dangling likes is observable. -/
theorem C1_no_dangling_likes (s : DBState) (h : Reachable s) : NoDanglingLikes s := by
  induction h with
  | init => intro l hl; simp [initialState] at hl
  | step _ hstep ih =>
    cases hstep with
    | create newId now text u s fresh =>
      intro l hl
      simp only [create_post] at hl
      obtain ⟨p, hp, hpe⟩ := ih l hl
      exact ⟨p, List.mem_append_left _ hp, hpe⟩
    | delete post_id u s s' hdel =>
      obtain ⟨⟨p0, hp0, hown⟩, hstate⟩ := delete_post_ok hdel
      subst hstate
      intro l hl
      obtain ⟨hl1, hl2⟩ := List.mem_filter.mp hl
      obtain ⟨p, hp, hpe⟩ := ih l hl1
      have hne : l.post_id ≠ post_id := bne_iff_ne.mp hl2
      exact ⟨p, List.mem_filter.mpr ⟨hp, bne_iff_ne.mpr (fun hc => hne (hpe.symm.trans hc))⟩, hpe⟩
    | like post_id u s s' hlk =>
      obtain ⟨⟨p0, hp0⟩, hnone, hstate⟩ := like_post_ok hlk
      subst hstate
      intro l hl
      rcases List.mem_append.mp hl with h0 | h0
      · exact ih l h0
      · rw [List.mem_singleton] at h0
        subst h0
        have hmem := List.mem_of_find?_eq_some hp0
        have hpr := List.find?_some hp0
        exact ⟨p0, hmem, by simpa using hpr⟩
    | unlike post_id u s s' hul =>
      obtain ⟨⟨p0, hp0⟩, lk, hlk, hstate⟩ := unlike_post_ok hul
      subst hstate
      intro l hl
      exact ih l (List.mem_filter.mp hl).1

/-- C1 witness: the state reached by creating a post and liking it has no
dangling like rows. -/
theorem C1_witness : NoDanglingLikes s2 :=
  C1_no_dangling_likes s2
    (Reachable.step
      (Reachable.step Reachable.init
        (Step.create demoPostId 1 demoText demoUser1 initialState (by decide)))
      (Step.like demoPostId demoUser2 s1 s2 rfl))

/-- C5: in every reachable state each (user_id, post_id) pair occurs in
at most one like row, and right after a successful like the same user's
repeat like of the same post is rejected with the already-liked error. -/
theorem C5_like_uniqueness :
    (∀ s, Reachable s → LikesUnique s) ∧
    (∀ post_id u s s', like_post post_id u s = .ok s' →
      like_post post_id u s' = .error (.badRequest alreadyLikedMsg)) := by
  constructor
  · intro s h
    induction h with
    | init => simp [initialState, LikesUnique]
    | step _ hstep ih =>
      cases hstep with
      | create newId now text u s fresh =>
        simpa [LikesUnique, create_post] using ih
      | delete post_id u s s' hdel =>
        obtain ⟨_, hstate⟩ := delete_post_ok hdel
        subst hstate
        exact List.Pairwise.sublist (List.filter_sublist _) ih
      | like post_id u s s' hlk =>
        obtain ⟨⟨p0, hp0⟩, hnone, hstate⟩ := like_post_ok hlk
        subst hstate
        simp only [LikesUnique] at ih ⊢
        rw [List.pairwise_append]
        refine ⟨ih, List.pairwise_singleton _ _, ?_⟩
        intro a ha b hb
        rw [List.mem_singleton] at hb
        subst hb
        have hfa := List.find?_eq_none.mp hnone a ha
        intro hc
        obtain ⟨h1, h2⟩ := hc
        apply hfa
        simp [h1, h2]
      | unlike post_id u s s' hul =>
        obtain ⟨_, lk, hlk, hstate⟩ := unlike_post_ok hul
        subst hstate
        exact List.Pairwise.sublist (List.filter_sublist _) ih
  · intro post_id u s s' h
    obtain ⟨⟨p0, hp0⟩, hnone, hstate⟩ := like_post_ok h
    subst hstate
    have hf : findPost (⟨s.posts, s.likes ++ [⟨s.nextLikeId, u.id, post_id⟩],
        s.nextLikeId + 1⟩ : DBState) post_id = some p0 := hp0
    have hl : findLike (⟨s.posts, s.likes ++ [⟨s.nextLikeId, u.id, post_id⟩],
        s.nextLikeId + 1⟩ : DBState) post_id u.id =
        some ⟨s.nextLikeId, u.id, post_id⟩ := by
      show List.find? _ (s.likes ++ [⟨s.nextLikeId, u.id, post_id⟩]) = _
      rw [List.find?_append]
      have h1 : List.find?
          (fun l => l.post_id == post_id && l.user_id == u.id) s.likes = none := hnone
      rw [h1]
      simp
    simp [like_post, hf, hl]

/-- C5 witness: the state after create-then-like has unique like pairs,
and user2's second like of the same post is rejected. -/
theorem C5_witness :
    LikesUnique s2 ∧
    like_post demoPostId demoUser2 s2 = .error (.badRequest alreadyLikedMsg) :=
  ⟨C5_like_uniqueness.1 s2
      (Reachable.step
        (Reachable.step Reachable.init
          (Step.create demoPostId 1 demoText demoUser1 initialState (by decide)))
        (Step.like demoPostId demoUser2 s1 s2 rfl)),
   C5_like_uniqueness.2 demoPostId demoUser2 s1 s2 rfl⟩

/-! Sorting facts for the listing endpoints. -/

lemma tsDesc_trans : ∀ a b c : PostRow,
    tsDesc a b = true → tsDesc b c = true → tsDesc a c = true := by
  intro a b c h1 h2
  simp [tsDesc] at *
  omega

lemma tsDesc_total : ∀ a b : PostRow, (tsDesc a b || tsDesc b a) = true := by
  intro a b
  simp [tsDesc]
  omega

lemma sorted_map_annotate (s : DBState) (l : List PostRow) :
    List.Sorted (fun a b : PostOut => b.timestamp ≤ a.timestamp)
      ((l.mergeSort tsDesc).map (annotate s)) := by
  show List.Pairwise _ _
  refine List.Pairwise.map (annotate s) (fun a b hab => ?_)
    (@List.sorted_mergeSort PostRow tsDesc tsDesc_trans tsDesc_total l)
  simpa [tsDesc, annotate] using hab

/-- C6: `list()` returns all posts ordered by timestamp descending and
`listByOwner(username)` exactly the posts with that owner_username in the
same order; in both each returned post carries `likes_count` equal to the
number of like rows for its id, and an unknown username yields an empty
list rather than an error. -/
theorem C6_listing (s : DBState) (username : Str) :
    (list_posts s).Perm (s.posts.map (annotate s)) ∧
    List.Sorted (fun a b : PostOut => b.timestamp ≤ a.timestamp) (list_posts s) ∧
    (∀ q ∈ list_posts s, q.likes_count = likesCount s q.id) ∧
    (get_user_posts username s).Perm
      ((s.posts.filter (fun p => p.owner_username == username)).map (annotate s)) ∧
    List.Sorted (fun a b : PostOut => b.timestamp ≤ a.timestamp)
      (get_user_posts username s) ∧
    (∀ q ∈ get_user_posts username s,
      q.owner_username = username ∧ q.likes_count = likesCount s q.id) ∧
    ((∀ p ∈ s.posts, p.owner_username ≠ username) → get_user_posts username s = []) := by
  refine ⟨?_, ?_, ?_, ?_, ?_, ?_, ?_⟩
  · exact List.Perm.map (annotate s) (List.mergeSort_perm s.posts tsDesc)
  · exact sorted_map_annotate s s.posts
  · intro q hq
    simp only [list_posts, List.mem_map] at hq
    obtain ⟨p, hp, rfl⟩ := hq
    rfl
  · exact List.Perm.map (annotate s) (List.mergeSort_perm _ tsDesc)
  · exact sorted_map_annotate s _
  · intro q hq
    simp only [get_user_posts, List.mem_map] at hq
    obtain ⟨p, hp, rfl⟩ := hq
    have hp2 : p ∈ s.posts.filter (fun p => p.owner_username == username) :=
      (List.mergeSort_perm _ tsDesc).mem_iff.mp hp
    have hu := (List.mem_filter.mp hp2).2
    exact ⟨by simpa using hu, rfl⟩
  · intro h
    have hfil : s.posts.filter (fun p => p.owner_username == username) = [] :=
      List.filter_eq_nil_iff.mpr (fun p hp => by simpa using h p hp)
    simp [get_user_posts, hfil]

/-- C6 witness: in the create-then-like state, listing by an owner with
no posts is empty, and the annotated demo post carries the computed like
count. -/
theorem C6_witness :
    get_user_posts user2Name s2 = [] ∧
    (annotate s2 demoPost).likes_count = likesCount s2 (annotate s2 demoPost).id :=
  ⟨(C6_listing s2 user2Name).2.2.2.2.2.2 (by decide),
   (C6_listing s2 user2Name).2.2.1 (annotate s2 demoPost)
     (((C6_listing s2 user2Name).1).mem_iff.mpr (by decide))⟩

/-! Token extraction through the second word of the header. -/

lemma tokenOf_two_words (w1 w2 rest : Str) (h1 : ' ' ∉ w1) (h2 : ' ' ∉ w2) :
    tokenOf (w1 ++ ' ' :: (w2 ++ ' ' :: rest)) = w2 := by
  unfold tokenOf
  rw [pySplit_sep_word ' ' w1 _ h1, pySplit_sep_word ' ' w2 rest h2]
  rfl

/-- C10: the auth resolver uses only the second space-separated word of
the header as the token: for each seeded username a header of the form
`Bearer <username> <anything>` authenticates as that user regardless of
the trailing words, and a header with two consecutive spaces after
`Bearer` (an empty second word) is rejected with `Unauthenticated`. -/
theorem C10_token_extraction (rest : Str) :
    get_current_user ("Bearer user1 ".toList ++ rest) = .ok ⟨user1Id, user1Name⟩ ∧
    get_current_user ("Bearer user2 ".toList ++ rest) = .ok ⟨user2Id, user2Name⟩ ∧
    get_current_user ("Bearer  ".toList ++ rest) =
      .error (.unauthenticated invalidTokenMsg) := by
  refine ⟨?_, ?_, ?_⟩
  · have hpre : bearerScheme.isPrefixOf ("Bearer user1 ".toList ++ rest) = true :=
      isPrefixOf_self_append bearerScheme ("user1 ".toList ++ rest)
    have htok : tokenOf ("Bearer user1 ".toList ++ rest) = user1Name :=
      tokenOf_two_words ("Bearer".toList) ("user1".toList) rest (by decide) (by decide)
    have hd : dictGet FAKE_USERS_DB user1Name =
        some ⟨user1Id, user1Name, password1⟩ := rfl
    unfold get_current_user
    rw [hpre, if_pos rfl, htok, hd]
  · have hpre : bearerScheme.isPrefixOf ("Bearer user2 ".toList ++ rest) = true :=
      isPrefixOf_self_append bearerScheme ("user2 ".toList ++ rest)
    have htok : tokenOf ("Bearer user2 ".toList ++ rest) = user2Name :=
      tokenOf_two_words ("Bearer".toList) ("user2".toList) rest (by decide) (by decide)
    have hd : dictGet FAKE_USERS_DB user2Name =
        some ⟨user2Id, user2Name, password2⟩ := rfl
    unfold get_current_user
    rw [hpre, if_pos rfl, htok, hd]
  · have hpre : bearerScheme.isPrefixOf ("Bearer  ".toList ++ rest) = true :=
      isPrefixOf_self_append bearerScheme (' ' :: rest)
    have htok : tokenOf ("Bearer  ".toList ++ rest) = [] :=
      tokenOf_two_words ("Bearer".toList) [] rest (by decide) (by decide)
    have hd : dictGet FAKE_USERS_DB ([] : Str) = none := rfl
    unfold get_current_user
    rw [hpre, if_pos rfl, htok, hd]

/-- C10 witness: a concrete header with a trailing word still
authenticates as user1. -/
theorem C10_witness :
    get_current_user ("Bearer user1 extra".toList) = .ok ⟨user1Id, user1Name⟩ :=
  (C10_token_extraction ("extra".toList)).1
